import Mathlib

/-!
Shallow embedding of the browser-side presentation layer of
`nexus_neural_dao`. The repository holds three near-duplicate variants:

* `src/app/static/scripts/app.js` — class `FinancialApp` (tables, cards,
  charts, tab switching); this is the richest variant and the primary
  embedding target (namespace `FinancialApp`).
* `src/unnamed/part_000` — an earlier `FinancialApp` class without charts;
  where it differs (no `switchTab('charts')` in `displayResults`, no
  fallback in `showError`, `formatText` without `String(...)` coercion)
  it is embedded separately with a `P0` suffix.
* `src/app/static/script.js` — a function-based variant (namespace
  `ScriptJs`).

Numbers flowing through the display layer are modelled as integers
(`Int`; the payloads rendered by these functions are whole-dollar and
count values), and the millions rescaling as exact rationals with
Mathlib's `round`, which like JavaScript's `Math.round` sends `x` to
`⌊x + 1/2⌋`. JavaScript string operations are modelled for ASCII data,
with the `en-US` locale assumed for `Intl`/`toLocaleString` grouping.
Absent-or-`null` JSON fields are modelled as `Option` `none`.
-/

/-- JavaScript runtime values as far as this display layer inspects them:
strings, (integer) numbers, booleans, `null` and `undefined`. -/
inductive JSVal where
  | vstr (s : String)
  | vnum (n : Int)
  | vbool (b : Bool)
  | vnull
  | vundef
deriving DecidableEq, Repr

/-- JavaScript truthiness of a `JSVal` (empty string, `0`, `false`,
`null` and `undefined` are falsy). -/
def JSVal.truthy : JSVal → Bool
  | .vstr s => s ≠ ""
  | .vnum n => n ≠ 0
  | .vbool b => b
  | .vnull => false
  | .vundef => false

/-- JavaScript `String(v)` coercion (integers print in decimal). -/
def JSVal.jsToString : JSVal → String
  | .vstr s => s
  | .vnum n => toString n
  | .vbool b => if b then "true" else "false"
  | .vnull => "null"
  | .vundef => "undefined"

/-- Template-literal interpolation of a possibly-absent integer field:
`undefined` interpolates as the string "undefined". -/
def jsInterpOptInt : Option Int → String
  | none => "undefined"
  | some n => toString n

/-- Comma-group a reversed digit list in threes (helper for the `en-US`
grouping of `Intl.NumberFormat` / `toLocaleString`). -/
def groupChars : List Char → List Char
  | a :: b :: c :: d :: rest => a :: b :: c :: ',' :: groupChars (d :: rest)
  | l => l

/-- Decimal rendering of a natural number with `en-US` thousands
grouping, e.g. `1234567` to "1,234,567". -/
def groupNat (n : Nat) : String :=
  ((groupChars (toString n).toList.reverse).reverse).asString

/-- JavaScript `Number.prototype.toLocaleString()` (equivalently
`Intl.NumberFormat` with locale `en-US`) on an integer. -/
def localeString (n : Int) : String :=
  (if n < 0 then "-" else "") ++ groupNat n.natAbs

namespace FinancialApp

/-- Embeds `FinancialApp.formatCurrency` (src/app/static/scripts/app.js
line 341; identical in part_000 lines 275-282): `Intl.NumberFormat`
`en-US` USD with zero fraction digits, e.g. `1234567` to "$1,234,567",
negative amounts as "-$...". -/
def formatCurrency (amount : Int) : String :=
  (if amount < 0 then "-$" else "$") ++ groupNat amount.natAbs

/-- Embeds `FinancialApp.formatNumber` (app.js line 342): grouped decimal
with no currency symbol. -/
def formatNumber (num : Int) : String := localeString num

end FinancialApp

/-- ASCII case of JavaScript `String.prototype.toUpperCase` on one
character: `a`-`z` map 32 code points down, all else unchanged. -/
def jsUpChar (c : Char) : Char :=
  if 'a' ≤ c ∧ c ≤ 'z' then Char.ofNat (c.toNat - 32) else c

/-- JavaScript word characters, the regex class `\w` = `[A-Za-z0-9_]`. -/
def isWordChar (c : Char) : Bool := c.isAlphanum || c = '_'

/-- The regex replace `.replace(/\b\w/g, l => l.toUpperCase())` scanned
left to right; the boolean argument records whether the previous
character was a word character (no word boundary before the current
one). -/
def upcaseWordStartsL : Bool → List Char → List Char
  | _, [] => []
  | prevW, c :: cs =>
      (if isWordChar c && !prevW then jsUpChar c else c) ::
        upcaseWordStartsL (isWordChar c) cs

/-- The regex replace `.replace(/_/g, ' ')` on a character list. -/
def replaceUnderscoresL (l : List Char) : List Char :=
  l.map fun c => if c = '_' then ' ' else c

/-- Embeds `formatLabel` (src/app/static/script.js line 253) and the
string path of `FinancialApp.formatText`: replace every underscore with
a space, then uppercase the first letter of every word. -/
def formatLabel (key : String) : String :=
  (upcaseWordStartsL false (replaceUnderscoresL key.toList)).asString

namespace FinancialApp

/-- Embeds `FinancialApp.formatText` (app.js line 343):
`String(text || '').replace(/_/g, ' ').replace(/\b\w/g, l =>
l.toUpperCase())`. A falsy argument is coerced to the empty string by
`text || ''`; a truthy non-string is coerced by `String(...)` and then
transformed. -/
def formatText (text : JSVal) : String :=
  formatLabel (if text.truthy then text.jsToString else "")

/-- Embeds `FinancialApp.formatText` of part_000 (lines 288-292):
`text.replace(...)` with no coercion, so any non-string receiver throws
a `TypeError` (`.error`). -/
def formatTextP0 : JSVal → Except String String
  | .vstr s => .ok (formatLabel s)
  | _ => .error "TypeError: text.replace is not a function"

end FinancialApp

/-- One month's row of the projection payload
(`monthly_projections[i]`), every numeric field possibly absent or
`null`. `month` is kept total (the payload invariant in the data model),
the rest as the renderer probes them. -/
structure Projection where
  month : Int
  sales_people : Option Int
  large_customers_cumulative : Option Int
  small_customers_cumulative : Option Int
  large_customer_revenue : Option Int
  small_customer_revenue : Option Int
  total_revenue : Option Int
  marketing_spend : Option Int
deriving DecidableEq, Repr

/-- A driver entry of `revenue_drivers` as probed by the class-based
renderer (`name`, optional `type`, `value`, `unit`, `formula`,
`business_unit`). -/
structure Driver where
  name : String
  dtype : Option String
  value : Option Int
  unit : Option String
  formula : Option String
  business_unit : Option String
deriving DecidableEq, Repr

/-- A value of the `assumptions` mapping: a number or a string (the
renderer branches on `typeof value === 'number'`). -/
inductive AVal where
  | anum (n : Int)
  | astr (s : String)
deriving DecidableEq, Repr

/-- The model payload returned by `/api/v1/search` as consumed here
(`model_id`, `monthly_projections`, `revenue_drivers`, the assumptions
mapping in its iteration order). -/
structure Model where
  model_id : String
  monthly_projections : List Projection
  revenue_drivers : List Driver
  assumptions : List (String × AVal)
deriving DecidableEq, Repr

namespace FinancialApp

/-- The cells of one `<tr>` of the projections table as written by
`FinancialApp.displayProjectionsTable` (app.js lines 107-118). -/
structure Row where
  monthCell : String
  salesPeopleCell : String
  largeCustCell : String
  smallCustCell : String
  largeRevCell : String
  smallRevCell : String
  totalRevCell : String
deriving DecidableEq, Repr

/-- One table row from one projection (app.js lines 108-117):
`month` and `sales_people` interpolate raw, the cumulative-customer
cells default with `?? 0` through `toLocaleString`, the three revenue
cells default with `|| 0` through `formatCurrency`. -/
def renderProjRow (proj : Projection) : Row :=
  { monthCell := "Month " ++ toString proj.month
    salesPeopleCell := jsInterpOptInt proj.sales_people ++ " people"
    largeCustCell := localeString (proj.large_customers_cumulative.getD 0)
    smallCustCell := localeString (proj.small_customers_cumulative.getD 0)
    largeRevCell := formatCurrency (proj.large_customer_revenue.getD 0)
    smallRevCell := formatCurrency (proj.small_customer_revenue.getD 0)
    totalRevCell := formatCurrency (proj.total_revenue.getD 0) }

/-- Embeds `FinancialApp.displayProjectionsTable` (app.js lines
104-120): clear the body, then `projections.forEach` appends one row per
projection, in order. The result is the list of appended rows. -/
def displayProjectionsTable (projections : List Projection) : List Row :=
  projections.map renderProjRow

end FinancialApp

namespace ScriptJs

/-- One month's row as the function-based variant reads it
(src/app/static/script.js lines 111-124): it uses the `_acquired`
customer fields and also shows `marketing_spend`; every field may be
absent or `null` in the payload. -/
structure SProjection where
  month : Option Int
  sales_people : Option Int
  large_customers_acquired : Option Int
  small_customers_acquired : Option Int
  large_customer_revenue : Option Int
  small_customer_revenue : Option Int
  marketing_spend : Option Int
  total_revenue : Option Int
deriving DecidableEq, Repr

/-- The cells of one row written by script.js `displayProjectionsTable`. -/
structure SRow where
  monthCell : String
  salesPeopleCell : String
  largeAcqCell : String
  largeRevCell : String
  smallAcqCell : String
  smallRevCell : String
  marketingCell : String
  totalRevCell : String
deriving DecidableEq, Repr

/-- `formatCurrency` of script.js applied to a possibly-absent field:
the code passes the raw field, and `Intl.NumberFormat(...).format` on
`undefined` yields "$NaN". -/
def formatCurrencyOpt : Option Int → String
  | none => "$NaN"
  | some n => FinancialApp.formatCurrency n

/-- One table row from one projection (script.js lines 112-122): month,
sales people and acquired-customer cells interpolate raw; the currency
cells go through `formatCurrency` with no defaulting. -/
def renderProjRow (projection : SProjection) : SRow :=
  { monthCell := jsInterpOptInt projection.month
    salesPeopleCell := jsInterpOptInt projection.sales_people
    largeAcqCell := jsInterpOptInt projection.large_customers_acquired
    largeRevCell := formatCurrencyOpt projection.large_customer_revenue
    smallAcqCell := jsInterpOptInt projection.small_customers_acquired
    smallRevCell := formatCurrencyOpt projection.small_customer_revenue
    marketingCell := formatCurrencyOpt projection.marketing_spend
    totalRevCell := formatCurrencyOpt projection.total_revenue }

/-- Embeds script.js `displayProjectionsTable` (lines 107-125): clear the
body, then append one row per projection in order. -/
def displayProjectionsTable (projections : List SProjection) : List SRow :=
  projections.map renderProjRow

/-- A driver entry as the function-based variant consumes it (script.js
lines 95-103 access `name`, `value` and `unit`; numeric values are
modelled as integers). -/
structure SDriver where
  name : String
  value : Int
  unit : String
deriving DecidableEq, Repr

/-- ASCII `String.prototype.toUpperCase()` over a whole string. -/
def jsToUpperCase (s : String) : String := (s.toList.map jsUpChar).asString

/-- Embeds `formatValue` (script.js lines 242-251): "$" formats as
currency, "#" as a rounded grouped count, "%" as `value*100` to one
decimal place, anything else as `toLocaleString`. Integer-valued inputs
make `Math.round` the identity and give `toFixed(1)` a trailing ".0". -/
def formatValue (value : Int) (unit : String) : String :=
  if unit = "$" then FinancialApp.formatCurrency value
  else if unit = "#" then localeString value
  else if unit = "%" then toString (value * 100) ++ ".0%"
  else localeString value

/-- One driver item written by script.js `displayRevenueDrivers` (lines
96-101): the name with underscores replaced by spaces and fully
uppercased, and the value through `formatValue`. -/
structure SDriverItem where
  header : String
  valueLine : String
deriving DecidableEq, Repr

/-- Embeds script.js `displayRevenueDrivers` (lines 91-104): clear the
container, then `drivers.forEach` appends one item per driver. There is
no empty-list branch, so an empty input leaves the container with zero
children. -/
def displayRevenueDrivers (drivers : List SDriver) : List SDriverItem :=
  drivers.map fun driver =>
    { header := jsToUpperCase (replaceUnderscoresL driver.name.toList).asString
      valueLine := formatValue driver.value driver.unit }

end ScriptJs

namespace FinancialApp

/-- One driver card written by `FinancialApp.displayRevenueDrivers`
(app.js lines 130-138): title through `formatText`, `type` and `unit`
defaulted with `||`, `value` defaulted with `??`, the `formula` and
`business_unit` lines emitted only when truthy. -/
structure DriverCard where
  title : String
  typeLine : String
  valueLine : String
  formulaLine : Option String
  businessUnitLine : Option String
deriving DecidableEq, Repr

/-- JavaScript `x || 'N/A'` on an optional string (absent and empty both
fall back). -/
def orNA : Option String → String
  | none => "N/A"
  | some s => if s = "" then "N/A" else s

/-- A string field emitted only when truthy (the template's
`cond ? line : ''` pattern). -/
def truthyLine : Option String → Option String
  | none => none
  | some s => if s = "" then none else some s

/-- The card body for one driver (app.js lines 132-138). -/
def renderDriverCard (driver : Driver) : DriverCard :=
  { title := formatText (.vstr driver.name)
    typeLine := orNA driver.dtype
    valueLine :=
      (match driver.value with
        | none => "N/A"
        | some n => toString n) ++ " " ++ (driver.unit.getD "")
    formulaLine := truthyLine driver.formula
    businessUnitLine := truthyLine driver.business_unit }

/-- A child of the drivers container: either the no-data paragraph or a
driver card. -/
inductive DriversChild where
  | noData (text : String)
  | card (c : DriverCard)
deriving DecidableEq, Repr

/-- Embeds `FinancialApp.displayRevenueDrivers` (app.js lines 122-141):
clear the container; when the list is empty write the explicit
"No revenue drivers available" paragraph and return, otherwise append
one card per driver in order. -/
def displayRevenueDrivers (drivers : List Driver) : List DriversChild :=
  if drivers.length = 0 then [.noData "No revenue drivers available"]
  else drivers.map fun d => .card (renderDriverCard d)

/-- A child of the assumptions container: either the no-data paragraph
or one key/value card. -/
inductive AssumptionsChild where
  | noData (text : String)
  | card (title : String) (valueLine : String)
deriving DecidableEq, Repr

/-- Embeds `FinancialApp.displayAssumptions` (app.js lines 143-163):
clear the container; an empty key set writes "No assumptions available",
otherwise one card per key in iteration order, the key through
`formatText` and numeric values through `formatNumber`. -/
def displayAssumptions (assumptions : List (String × AVal)) :
    List AssumptionsChild :=
  if assumptions.length = 0 then [.noData "No assumptions available"]
  else assumptions.map fun kv =>
    .card (formatText (.vstr kv.1))
      (match kv.2 with
        | .anum n => formatNumber n
        | .astr s => s)

/-- The millions rescaling of the third chart's data series (app.js line
218): `Math.round((v / 1_000_000) * 100) / 100`, in exact rational
arithmetic; Mathlib's `round` and `Math.round` both send `x` to
`⌊x + 1/2⌋`. -/
def millionsTransform (v : Int) : ℚ :=
  (round ((v : ℚ) / 1000000 * 100) : ℤ) / 100

/-- The four data series and shared labels derived at the top of
`FinancialApp.renderCharts` (app.js lines 214-218). -/
structure ChartSeries where
  labels : List String
  largeRev : List Int
  smallRev : List Int
  totalRev : List Int
  totalRevMn : List ℚ
deriving DecidableEq, Repr

/-- Embeds the series derivation of `renderCharts`: labels "M"+month,
the three revenue series defaulted with `|| 0`, and `totalRevMn` as the
map of the millions transform over `totalRev`. -/
def chartSeries (projections : List Projection) : ChartSeries :=
  let totalRev := projections.map fun p => p.total_revenue.getD 0
  { labels := projections.map fun p => "M" ++ toString p.month
    largeRev := projections.map fun p => p.large_customer_revenue.getD 0
    smallRev := projections.map fun p => p.small_customer_revenue.getD 0
    totalRev := totalRev
    totalRevMn := totalRev.map millionsTransform }

end FinancialApp

/-- JavaScript `String.prototype.trim()` (for ASCII whitespace): drop
leading and trailing whitespace characters. -/
def jsTrim (s : String) : String :=
  (((s.toList.dropWhile Char.isWhitespace).reverse.dropWhile
      Char.isWhitespace).reverse).asString

namespace FinancialApp

/-- One chart slot of `this.charts`: whether the slot currently holds a
handle (`this.charts.<slot>` non-null), together with a ledger of how
many widgets created for this slot have not been destroyed. The ledger
is not program state; it counts the `new Chart(...)` and `.destroy()`
calls so that leak-freedom can be stated. -/
structure SlotState where
  handle : Bool
  live : Nat
deriving DecidableEq, Repr

/-- The `if (this.charts.<slot>) this.charts.<slot>.destroy()` step: a
held widget is destroyed and the slot emptied. -/
def destroyIfPresent (s : SlotState) : SlotState :=
  if s.handle then { handle := false, live := s.live - 1 } else s

/-- The `this.charts.<slot> = new Chart(...)` step: a fresh widget is
created and stored. -/
def createNew (s : SlotState) : SlotState :=
  { handle := true, live := s.live + 1 }

/-- One slot's update inside `renderCharts`: guarded by the slot's
canvas element and `window.Chart` being present, destroy any held
widget, then create the new one (app.js lines 227-238, 243-260 and
265-294 all follow this shape). -/
def renderSlot (present : Bool) (s : SlotState) : SlotState :=
  if present then createNew (destroyIfPresent s) else s

/-- The three chart slots of `this.charts` (app.js line 5). -/
structure ChartsState where
  revenueLine : SlotState
  revenueBreakdown : SlotState
  revenueMillion : SlotState
deriving DecidableEq, Repr

/-- The constructor's chart state: every slot null, no widget ever
created. -/
def initCharts : ChartsState :=
  { revenueLine := { handle := false, live := 0 }
    revenueBreakdown := { handle := false, live := 0 }
    revenueMillion := { handle := false, live := 0 } }

/-- The environment of one `renderCharts` call: whether each canvas
element and the Chart library are present. -/
structure RenderEnv where
  lineEl : Bool
  barEl : Bool
  mnEl : Bool
  chartLib : Bool
deriving DecidableEq, Repr

/-- Embeds the widget lifecycle of `FinancialApp.renderCharts` (app.js
lines 211-295): an empty (or non-array) projections argument returns
immediately; otherwise each of the three slots is updated
destroy-before-create under its own element guard. The derived data
series of the same function are embedded as `chartSeries`. -/
def renderCharts (projections : List Projection) (env : RenderEnv)
    (cs : ChartsState) : ChartsState :=
  if projections.isEmpty then cs
  else
    { revenueLine := renderSlot (env.lineEl && env.chartLib) cs.revenueLine
      revenueBreakdown :=
        renderSlot (env.barEl && env.chartLib) cs.revenueBreakdown
      revenueMillion := renderSlot (env.mnEl && env.chartLib) cs.revenueMillion }

/-- Fold a sequence of `renderCharts` calls (projections plus
environment each time) over a chart state. -/
def applyRenders (cs : ChartsState) :
    List (List Projection × RenderEnv) → ChartsState
  | [] => cs
  | (p, e) :: rest => applyRenders (renderCharts p e cs) rest

/-- A slot is consistent when its live-widget count is exactly its
handle indicator: one live widget when the slot is occupied, none when
it is empty. -/
def SlotState.inv (s : SlotState) : Prop :=
  s.live = if s.handle then 1 else 0

/-- All three slots are consistent. -/
def ChartsState.inv (cs : ChartsState) : Prop :=
  cs.revenueLine.inv ∧ cs.revenueBreakdown.inv ∧ cs.revenueMillion.inv

/-- The UI-visible state of the class-based app: the held model, the
loading flag, the error banner (visibility plus its text), and the
active tab. The chart slots ride along for the chart-owning variant. -/
structure UIState where
  currentModel : Option Model
  loading : Bool
  errorVisible : Bool
  errorText : String
  activeTab : String
  charts : ChartsState
deriving DecidableEq, Repr

/-- The `showError` mutation (app.js lines 310-322): set the banner text
and unhide it. -/
def showError (message : String) (st : UIState) : UIState :=
  { st with errorVisible := true, errorText := message }

/-- Embeds `FinancialApp.switchTab` (app.js lines 188-209): activate the
named tab; on entering "charts" with a held model, resize existing
widgets when any slot is occupied, otherwise render the charts from the
held model's projections. -/
def switchTab (tabName : String) (env : RenderEnv) (st : UIState) : UIState :=
  let st1 := { st with activeTab := tabName }
  if tabName = "charts" then
    match st1.currentModel with
    | some m =>
        if st1.charts.revenueLine.handle || st1.charts.revenueBreakdown.handle
            || st1.charts.revenueMillion.handle then
          st1
        else
          { st1 with charts := renderCharts m.monthly_projections env st1.charts }
    | none => st1
  else st1

/-- The outcome of one round trip through the network collaborator for
`/api/v1/search`: a parsed success body, a non-ok response whose error
body parsed (with its optional `detail` field), a non-ok response whose
error body failed to parse (carrying the parse error's message), or a
throw from `fetch` itself or from the success-body parse (carrying the
thrown error's message). -/
inductive FetchOutcome where
  | success (data : Model)
  | httpError (detail : Option String)
  | httpErrorNoJson (parseMsg : String)
  | threw (msg : String)
deriving DecidableEq, Repr

/-- The outcome is anything but a parsed success body. -/
def FetchOutcome.isFailure : FetchOutcome → Bool
  | .success _ => false
  | _ => true

/-- The messages a failure outcome carries from outside the app are
non-empty (true of real `fetch`/JSON-parse errors, whose messages are
never empty). -/
def FetchOutcome.failureMsgNonempty : FetchOutcome → Prop
  | .threw m => m ≠ ""
  | .httpErrorNoJson pm => pm ≠ ""
  | _ => True

instance : DecidablePred FetchOutcome.failureMsgNonempty := fun o => by
  unfold FetchOutcome.failureMsgNonempty
  cases o <;> infer_instance

/-- The fallback text of app.js line 66. -/
def genericSearchFailure : String := "Failed to generate model. Please try again."

/-- The message app.js displays for a failure outcome (lines 65-75):
`err.detail || detail` keeps the fallback when `detail` is absent or
empty, a failed error-body parse is swallowed by the inner `catch`, and
the outer catch shows `error.message || String(error)` — `String` of an
`Error` with an empty message is "Error". -/
def appErrMsg : FetchOutcome → String
  | .httpError (some d) => if d = "" then genericSearchFailure else d
  | .httpError none => genericSearchFailure
  | .httpErrorNoJson _ => genericSearchFailure
  | .threw m => if m = "" then "Error" else m
  | .success _ => ""

/-- The message part_000 displays for a failure outcome (lines 64-74):
no inner catch, so a failed error-body parse throws and its own message
is shown, and the outer catch shows `error.message` with no fallback. -/
def p0ErrMsg : FetchOutcome → String
  | .httpError (some d) => if d = "" then genericSearchFailure else d
  | .httpError none => genericSearchFailure
  | .httpErrorNoJson pm => pm
  | .threw m => m
  | .success _ => ""

/-- Embeds `FinancialApp.generateModel` of app.js (lines 53-79) driven
by the trimmed query and the network outcome. Returns the new state and
the query string sent to the network collaborator (`none` when no call
was made). An empty trimmed query
shows the local validation error and returns before any fetch. On
success the body is stored, `displayResults` rerenders (its chart part
is `renderCharts`, then `switchTab('charts')`); on failure the error
banner shows `appErrMsg`; the `finally` clears loading either way. -/
def generateModel (st : UIState) (rawQuery : String) (env : RenderEnv)
    (outcome : FetchOutcome) : UIState × Option String :=
  let query := jsTrim rawQuery
  if query = "" then
    (showError "Please describe your financial scenario" st, none)
  else
    let st1 := { st with loading := true, errorVisible := false }
    match outcome with
    | .success data =>
        let st2 := { st1 with currentModel := some data }
        let st3 :=
          { st2 with charts := renderCharts data.monthly_projections env st2.charts }
        let st4 := switchTab "charts" env st3
        ({ st4 with loading := false }, some query)
    | o => ({ showError (appErrMsg o) st1 with loading := false }, some query)

/-- Embeds `FinancialApp.generateModel` of part_000 (lines 50-78): the
same control flow without any chart work and without the `switchTab`
call in `displayResults`, and with `p0ErrMsg` as the displayed failure
message. -/
def generateModelP0 (st : UIState) (rawQuery : String)
    (outcome : FetchOutcome) : UIState × Option String :=
  let query := jsTrim rawQuery
  if query = "" then
    (showError "Please describe your financial scenario" st, none)
  else
    let st1 := { st with loading := true, errorVisible := false }
    match outcome with
    | .success data =>
        ({ st1 with currentModel := some data, loading := false }, some query)
    | o => ({ showError (p0ErrMsg o) st1 with loading := false }, some query)

/-- The outcome of one round trip for `/api/v1/export/excel/{id}`: a
binary body, a non-ok response, or a throw from `fetch`/`blob`. -/
inductive ExportOutcome where
  | ok
  | httpFail
  | threw (msg : String)
deriving DecidableEq, Repr

/-- Embeds `FinancialApp.exportToExcel` (app.js lines 165-186, identical
control flow in part_000 lines 175-204), driven by the network outcome.
Returns the new state, whether the export endpoint was fetched, and
whether a download was triggered. With no held model it returns at once
(line 166) before touching loading, the network or the DOM. -/
def exportToExcel (st : UIState) (outcome : ExportOutcome) :
    UIState × Bool × Bool :=
  match st.currentModel with
  | none => (st, false, false)
  | some _ =>
      let st1 := { st with loading := true }
      match outcome with
      | .ok => ({ st1 with loading := false }, true, true)
      | .httpFail =>
          ({ showError "Failed to export Excel file" st1 with loading := false },
            true, false)
      | .threw m =>
          ({ showError (if m = "" then "Error" else m) st1 with loading := false },
            true, false)

end FinancialApp

namespace ScriptJs

/-- The UI-visible state of the function-based variant: the stored model
id, whether the loading section is shown, and the last alert text (the
variant reports errors with `alert`). -/
structure SState where
  currentModelId : Option String
  loadingShown : Bool
  lastAlert : Option String
deriving DecidableEq, Repr

/-- Embeds `handleQuerySubmit` of script.js (lines 20-60) driven by the
form's query value and the network outcome. Returns the new state and
the query string sent to the network collaborator (`none` would mean no
call was made). There is no emptiness check on the query: `showLoading`
runs and the fetch is issued for every submission, the query passed
through as a search parameter. -/
def handleQuerySubmit (st : SState) (query : String)
    (outcome : FinancialApp.FetchOutcome) : SState × Option String :=
  let st1 := { st with loadingShown := true }
  let alerted := fun (m : String) =>
    { st1 with loadingShown := false, lastAlert := some ("Error: " ++ m) }
  match outcome with
  | .success data =>
      ({ st1 with currentModelId := some data.model_id, loadingShown := false },
        some query)
  | .httpError (some d) =>
      (alerted (if d = "" then "Failed to generate model" else d), some query)
  | .httpError none => (alerted "Failed to generate model", some query)
  | .httpErrorNoJson pm => (alerted pm, some query)
  | .threw m => (alerted m, some query)

end ScriptJs

namespace FinancialApp

/-- Post-state of a failed search as the spec describes it: the held
model is untouched, the error banner is visible with non-empty text, and
loading is off. -/
def failurePost (pre post : UIState) : Prop :=
  post.currentModel = pre.currentModel ∧ post.errorVisible = true ∧
    post.errorText ≠ "" ∧ post.loading = false

end FinancialApp

/-- A fixture state: fresh app, no model, table tab active. -/
def st0 : FinancialApp.UIState :=
  { currentModel := none
    loading := false
    errorVisible := false
    errorText := ""
    activeTab := "table"
    charts := FinancialApp.initCharts }

/-- A fixture environment: all three canvases and the Chart library
present. -/
def env0 : FinancialApp.RenderEnv :=
  { lineEl := true, barEl := true, mnEl := true, chartLib := true }

/-- A fixture model payload. -/
def m0 : Model :=
  { model_id := "m-1"
    monthly_projections :=
      [{ month := 1
         sales_people := some 2
         large_customers_cumulative := some 1
         small_customers_cumulative := some 10
         large_customer_revenue := some 16667
         small_customer_revenue := some 5000
         total_revenue := some 21667
         marketing_spend := some 300000 }]
    revenue_drivers := []
    assumptions := [] }

/-- A fixture projection with every optional field absent. -/
def pAllNone : Projection :=
  { month := 1
    sales_people := none
    large_customers_cumulative := none
    small_customers_cumulative := none
    large_customer_revenue := none
    small_customer_revenue := none
    total_revenue := none
    marketing_spend := none }

/-- A fixture state for the function-based variant. -/
def sst0 : ScriptJs.SState :=
  { currentModelId := none, loadingShown := false, lastAlert := none }

theorem upcaseWordStartsL_length (b : Bool) (l : List Char) :
    (upcaseWordStartsL b l).length = l.length := by
  induction l generalizing b with
  | nil => rfl
  | cons c cs ih => simp [upcaseWordStartsL, ih]

namespace FinancialApp

theorem slotInv_renderSlot {s : SlotState} (h : s.inv) (b : Bool) :
    (renderSlot b s).inv := by
  unfold SlotState.inv at h ⊢
  unfold renderSlot createNew destroyIfPresent
  cases b <;> cases hs : s.handle <;> simp_all

theorem chartsInv_renderCharts {cs : ChartsState} (h : cs.inv)
    (p : List Projection) (e : RenderEnv) : (renderCharts p e cs).inv := by
  obtain ⟨h1, h2, h3⟩ := h
  unfold renderCharts
  split
  · exact ⟨h1, h2, h3⟩
  · exact ⟨slotInv_renderSlot h1 _, slotInv_renderSlot h2 _,
      slotInv_renderSlot h3 _⟩

theorem chartsInv_applyRenders {cs : ChartsState} (h : cs.inv)
    (calls : List (List Projection × RenderEnv)) : (applyRenders cs calls).inv := by
  induction calls generalizing cs with
  | nil => exact h
  | cons c rest ih => exact ih (chartsInv_renderCharts h c.1 c.2)

theorem initCharts_inv : initCharts.inv := by
  refine ⟨?_, ?_, ?_⟩ <;> rfl

end FinancialApp

/-- C3: across any sequence of `renderCharts` calls starting from the
constructor's empty chart state, after every prefix of the sequence each
of the three slots (`revenueLine`, `revenueBreakdown`, `revenueMillion`)
has at most one live widget: each slot update destroys the held widget
(`destroyIfPresent`) before creating the new one (`createNew`), so no
render leaks a widget. -/
theorem FinancialApp.renderCharts_no_widget_leak
    (calls : List (List Projection × FinancialApp.RenderEnv)) (n : Nat) :
    (FinancialApp.applyRenders FinancialApp.initCharts
        (calls.take n)).revenueLine.live ≤ 1 ∧
    (FinancialApp.applyRenders FinancialApp.initCharts
        (calls.take n)).revenueBreakdown.live ≤ 1 ∧
    (FinancialApp.applyRenders FinancialApp.initCharts
        (calls.take n)).revenueMillion.live ≤ 1 := by
  obtain ⟨h1, h2, h3⟩ :=
    FinancialApp.chartsInv_applyRenders FinancialApp.initCharts_inv (calls.take n)
  refine ⟨?_, ?_, ?_⟩
  · rw [h1]; split <;> omega
  · rw [h2]; split <;> omega
  · rw [h3]; split <;> omega

/-- C2: rendering the projections table produces exactly one row per
projection, and the i-th row is the rendering of the i-th projection
(rows appear in `monthly_projections` order), in both the class-based
and the function-based table renderers. -/
theorem FinancialApp.displayProjectionsTable_rowwise
    (projections : List Projection)
    (sprojections : List ScriptJs.SProjection) :
    (FinancialApp.displayProjectionsTable projections).length
        = projections.length ∧
    (∀ i : Nat, (FinancialApp.displayProjectionsTable projections)[i]?
        = projections[i]?.map FinancialApp.renderProjRow) ∧
    (ScriptJs.displayProjectionsTable sprojections).length
        = sprojections.length ∧
    (∀ i : Nat, (ScriptJs.displayProjectionsTable sprojections)[i]?
        = sprojections[i]?.map ScriptJs.renderProjRow) := by
  refine ⟨?_, ?_, ?_, ?_⟩
  · simp [FinancialApp.displayProjectionsTable]
  · intro i
    simp [FinancialApp.displayProjectionsTable, List.getElem?_map]
  · simp [ScriptJs.displayProjectionsTable]
  · intro i
    simp [ScriptJs.displayProjectionsTable, List.getElem?_map]

/-- C4: the totalRevMn series of `renderCharts` is the pointwise image
of the `|| 0`-defaulted total-revenue series under the millions
transform, the transform is exactly
`Math.round(v / 1_000_000 * 100) / 100`, and it maps `12_345_678` to
`12.35`. -/
theorem FinancialApp.chartSeries_millions (projections : List Projection) :
    (FinancialApp.chartSeries projections).totalRevMn
        = projections.map
            (fun p => FinancialApp.millionsTransform (p.total_revenue.getD 0)) ∧
    (∀ v : Int, FinancialApp.millionsTransform v
        = (round ((v : ℚ) / 1000000 * 100) : ℤ) / 100) ∧
    FinancialApp.millionsTransform 12345678 = 12.35 := by
  refine ⟨?_, fun v => rfl, ?_⟩
  · simp [FinancialApp.chartSeries, List.map_map]
  · norm_num [FinancialApp.millionsTransform, round_eq]

/-- C6 counterexample: a projection with every optional field absent
renders (in the class-based renderer, app.js) a sales-people cell equal
to "undefined people" — the raw interpolation of `undefined` — not the
claimed zero-equivalent, even though the defaulted revenue cell is
"$0". -/
theorem FinancialApp.missing_sales_people_renders_undefined :
    (FinancialApp.renderProjRow pAllNone).salesPeopleCell
        = "undefined people" ∧
    (FinancialApp.renderProjRow pAllNone).salesPeopleCell ≠ "0 people" ∧
    (FinancialApp.renderProjRow pAllNone).totalRevCell = "$0" := by
  refine ⟨rfl, ?_, rfl⟩
  decide

/-- C6 amended: in the class-based renderer the five `??`/`||`-defaulted
fields — the two cumulative customer counts and the three revenue fields
— render as the zero-equivalents "0" and "$0" when absent or null, with
no error raised; `sales_people` alone is interpolated raw (see the
counterexample). -/
theorem FinancialApp.defaulted_fields_render_zero
    (m : Int) (sp ms : Option Int) :
    (FinancialApp.renderProjRow
        { month := m, sales_people := sp
          large_customers_cumulative := none
          small_customers_cumulative := none
          large_customer_revenue := none
          small_customer_revenue := none
          total_revenue := none
          marketing_spend := ms }).largeCustCell = "0" ∧
    (FinancialApp.renderProjRow
        { month := m, sales_people := sp
          large_customers_cumulative := none
          small_customers_cumulative := none
          large_customer_revenue := none
          small_customer_revenue := none
          total_revenue := none
          marketing_spend := ms }).smallCustCell = "0" ∧
    (FinancialApp.renderProjRow
        { month := m, sales_people := sp
          large_customers_cumulative := none
          small_customers_cumulative := none
          large_customer_revenue := none
          small_customer_revenue := none
          total_revenue := none
          marketing_spend := ms }).largeRevCell = "$0" ∧
    (FinancialApp.renderProjRow
        { month := m, sales_people := sp
          large_customers_cumulative := none
          small_customers_cumulative := none
          large_customer_revenue := none
          small_customer_revenue := none
          total_revenue := none
          marketing_spend := ms }).smallRevCell = "$0" ∧
    (FinancialApp.renderProjRow
        { month := m, sales_people := sp
          large_customers_cumulative := none
          small_customers_cumulative := none
          large_customer_revenue := none
          small_customer_revenue := none
          total_revenue := none
          marketing_spend := ms }).totalRevCell = "$0" := by
  refine ⟨?_, ?_, ?_, ?_, ?_⟩ <;> simp only [FinancialApp.renderProjRow] <;> rfl

/-- C7 counterexample: the function-based variant's drivers renderer has
no empty-list branch, so an empty `revenue_drivers` list leaves the
container with zero child elements and no placeholder. -/
theorem ScriptJs.empty_drivers_render_empty_container :
    ScriptJs.displayRevenueDrivers [] = [] ∧
    (ScriptJs.displayRevenueDrivers []).length = 0 :=
  ⟨rfl, rfl⟩

/-- C7 amended: in the class-based variant an empty drivers list and an
empty assumptions mapping each render the explicit no-data placeholder
as the container's only child; the function-based variant renders an
empty container instead (see the counterexample). -/
theorem FinancialApp.empty_lists_render_placeholders :
    FinancialApp.displayRevenueDrivers []
        = [.noData "No revenue drivers available"] ∧
    FinancialApp.displayAssumptions []
        = [.noData "No assumptions available"] :=
  ⟨rfl, rfl⟩

theorem FinancialApp.appErrMsg_ne_empty (o : FinancialApp.FetchOutcome)
    (hf : o.isFailure = true) : FinancialApp.appErrMsg o ≠ "" := by
  cases o with
  | success d => simp [FinancialApp.FetchOutcome.isFailure] at hf
  | httpError detail =>
      cases detail with
      | none => decide
      | some d =>
          by_cases hd : d = ""
          · simp only [FinancialApp.appErrMsg, if_pos hd]
            decide
          · simp [FinancialApp.appErrMsg, hd]
  | httpErrorNoJson pm =>
      simp only [FinancialApp.appErrMsg]
      decide
  | threw m =>
      by_cases hm : m = ""
      · simp only [FinancialApp.appErrMsg, if_pos hm]
        decide
      · simp [FinancialApp.appErrMsg, hm]

theorem FinancialApp.p0ErrMsg_ne_empty (o : FinancialApp.FetchOutcome)
    (hf : o.isFailure = true) (hmsg : o.failureMsgNonempty) :
    FinancialApp.p0ErrMsg o ≠ "" := by
  cases o with
  | success d => simp [FinancialApp.FetchOutcome.isFailure] at hf
  | httpError detail =>
      cases detail with
      | none => decide
      | some d =>
          by_cases hd : d = ""
          · simp only [FinancialApp.p0ErrMsg, if_pos hd]
            decide
          · simp [FinancialApp.p0ErrMsg, hd]
  | httpErrorNoJson pm => simpa [FinancialApp.p0ErrMsg] using hmsg
  | threw m => simpa [FinancialApp.p0ErrMsg] using hmsg

/-- C1: when the trimmed query is non-empty (so a request is made) and
the network outcome is anything but a parsed success — a non-ok
response, whether or not its error body parses, or a throw — the
operation leaves the held model exactly as it was, shows a non-empty
error message, and ends with loading off. This holds unconditionally
for app.js; for part_000 (which displays the thrown message verbatim)
it holds whenever the external error messages are non-empty, as real
`fetch`/JSON errors are. -/
theorem FinancialApp.failed_search_preserves_model
    (st : FinancialApp.UIState) (rawQuery : String)
    (env : FinancialApp.RenderEnv) (o : FinancialApp.FetchOutcome)
    (hq : jsTrim rawQuery ≠ "") (hf : o.isFailure = true) :
    FinancialApp.failurePost st
        (FinancialApp.generateModel st rawQuery env o).1 ∧
    (o.failureMsgNonempty →
      FinancialApp.failurePost st
        (FinancialApp.generateModelP0 st rawQuery o).1) := by
  have happ := FinancialApp.appErrMsg_ne_empty o hf
  constructor
  · cases o with
    | success d => simp [FinancialApp.FetchOutcome.isFailure] at hf
    | httpError detail =>
        exact ⟨by simp [FinancialApp.generateModel, hq, FinancialApp.showError],
          by simp [FinancialApp.generateModel, hq, FinancialApp.showError],
          by simpa [FinancialApp.generateModel, hq, FinancialApp.showError]
            using happ,
          by simp [FinancialApp.generateModel, hq, FinancialApp.showError]⟩
    | httpErrorNoJson pm =>
        exact ⟨by simp [FinancialApp.generateModel, hq, FinancialApp.showError],
          by simp [FinancialApp.generateModel, hq, FinancialApp.showError],
          by simpa [FinancialApp.generateModel, hq, FinancialApp.showError]
            using happ,
          by simp [FinancialApp.generateModel, hq, FinancialApp.showError]⟩
    | threw m =>
        exact ⟨by simp [FinancialApp.generateModel, hq, FinancialApp.showError],
          by simp [FinancialApp.generateModel, hq, FinancialApp.showError],
          by simpa [FinancialApp.generateModel, hq, FinancialApp.showError]
            using happ,
          by simp [FinancialApp.generateModel, hq, FinancialApp.showError]⟩
  · intro hmsg
    have hp0 := FinancialApp.p0ErrMsg_ne_empty o hf hmsg
    cases o with
    | success d => simp [FinancialApp.FetchOutcome.isFailure] at hf
    | httpError detail =>
        exact ⟨by simp [FinancialApp.generateModelP0, hq, FinancialApp.showError],
          by simp [FinancialApp.generateModelP0, hq, FinancialApp.showError],
          by simpa [FinancialApp.generateModelP0, hq, FinancialApp.showError]
            using hp0,
          by simp [FinancialApp.generateModelP0, hq, FinancialApp.showError]⟩
    | httpErrorNoJson pm =>
        exact ⟨by simp [FinancialApp.generateModelP0, hq, FinancialApp.showError],
          by simp [FinancialApp.generateModelP0, hq, FinancialApp.showError],
          by simpa [FinancialApp.generateModelP0, hq, FinancialApp.showError]
            using hp0,
          by simp [FinancialApp.generateModelP0, hq, FinancialApp.showError]⟩
    | threw m =>
        exact ⟨by simp [FinancialApp.generateModelP0, hq, FinancialApp.showError],
          by simp [FinancialApp.generateModelP0, hq, FinancialApp.showError],
          by simpa [FinancialApp.generateModelP0, hq, FinancialApp.showError]
            using hp0,
          by simp [FinancialApp.generateModelP0, hq, FinancialApp.showError]⟩

/-- Witness for C1 at a concrete state and a concrete non-ok response
with no parsed detail. -/
theorem FinancialApp.failed_search_preserves_model_witness :
    (jsTrim "grow revenue" ≠ "") ∧
    (FinancialApp.FetchOutcome.httpError none).isFailure = true ∧
    (FinancialApp.failurePost st0
        (FinancialApp.generateModel st0 "grow revenue" env0
          (.httpError none)).1 ∧
      ((FinancialApp.FetchOutcome.httpError none).failureMsgNonempty →
        FinancialApp.failurePost st0
          (FinancialApp.generateModelP0 st0 "grow revenue"
            (.httpError none)).1)) :=
  ⟨by decide, by decide,
    FinancialApp.failed_search_preserves_model st0 "grow revenue" env0
      (.httpError none) (by decide) (by decide)⟩

/-- C5 counterexample: the truthy non-string input `42` is not coerced
to the empty string by app.js's `formatText` — `String(42 || '')` is
"42" — and part_000's `formatText` throws a `TypeError` on the same
input instead of returning anything. -/
theorem FinancialApp.formatText_nonstring_counterexample :
    FinancialApp.formatText (.vnum 42) = "42" ∧
    FinancialApp.formatText (.vnum 42) ≠ "" ∧
    FinancialApp.formatTextP0 (.vnum 42)
        = .error "TypeError: text.replace is not a function" :=
  ⟨by decide, by decide, rfl⟩

/-- C5 amended: on every string input `formatText` agrees with the
underscore-to-space, uppercase-word-starts transform `formatLabel`
(which replaces every underscore, preserves length, and maps
"large_customer_revenue" to "Large Customer Revenue"), and every falsy
input is coerced to the empty string; but truthy non-string inputs are
coerced with `String(...)` rather than to "" (see the counterexample),
and the part_000 variant throws on every non-string. -/
theorem FinancialApp.formatText_string_transform
    (s : String) (v : JSVal) (hv : v.truthy = false) :
    FinancialApp.formatText (.vstr s) = formatLabel s ∧
    formatLabel "large_customer_revenue" = "Large Customer Revenue" ∧
    (∀ c ∈ replaceUnderscoresL s.toList, c ≠ '_') ∧
    (formatLabel s).length = s.length ∧
    FinancialApp.formatText v = "" := by
  refine ⟨?_, by decide, ?_, ?_, ?_⟩
  · by_cases h : s = ""
    · subst h; rfl
    · simp [FinancialApp.formatText, JSVal.truthy, JSVal.jsToString, h]
  · intro c hc
    simp only [replaceUnderscoresL, List.mem_map] at hc
    obtain ⟨a, _, rfl⟩ := hc
    by_cases ha : a = '_' <;> simp [ha]
  · calc (formatLabel s).length
        = (upcaseWordStartsL false (replaceUnderscoresL s.toList)).length := rfl
      _ = (replaceUnderscoresL s.toList).length :=
          upcaseWordStartsL_length false _
      _ = s.toList.length := by simp [replaceUnderscoresL]
      _ = s.length := rfl
  · simp only [FinancialApp.formatText, hv]
    rfl

/-- Witness for C5's amended theorem at the string "a_b" and the falsy
non-string `null`. -/
theorem FinancialApp.formatText_string_transform_witness :
    JSVal.vnull.truthy = false ∧
    (FinancialApp.formatText (.vstr "a_b") = formatLabel "a_b" ∧
      formatLabel "large_customer_revenue" = "Large Customer Revenue" ∧
      (∀ c ∈ replaceUnderscoresL "a_b".toList, c ≠ '_') ∧
      (formatLabel "a_b").length = "a_b".length ∧
      FinancialApp.formatText JSVal.vnull = "") :=
  ⟨rfl, FinancialApp.formatText_string_transform "a_b" .vnull rfl⟩

/-- C8 counterexample: the function-based variant submits an empty query
anyway — `handleQuerySubmit` has no emptiness check, so for the empty
query (already empty after trimming) the network collaborator is still
invoked (with the empty query), and no local validation error is
raised. -/
theorem ScriptJs.empty_query_still_fetches :
    jsTrim "" = "" ∧
    (ScriptJs.handleQuerySubmit sst0 "" (.success m0)).2 = some "" ∧
    (ScriptJs.handleQuerySubmit sst0 "" (.success m0)).1.lastAlert = none :=
  ⟨rfl, rfl, rfl⟩

/-- C8 amended: in the class-based variants, a query that is empty after
trimming makes `generateModel` show the local validation error and
return without invoking the network collaborator or touching the model;
the function-based `handleQuerySubmit` has no such guard and always
fetches (see the counterexample). -/
theorem FinancialApp.empty_query_no_fetch
    (st : FinancialApp.UIState) (rawQuery : String)
    (env : FinancialApp.RenderEnv) (o : FinancialApp.FetchOutcome)
    (hq : jsTrim rawQuery = "") :
    (FinancialApp.generateModel st rawQuery env o).2 = none ∧
    (FinancialApp.generateModel st rawQuery env o).1.errorVisible = true ∧
    (FinancialApp.generateModel st rawQuery env o).1.errorText
        = "Please describe your financial scenario" ∧
    (FinancialApp.generateModel st rawQuery env o).1.currentModel
        = st.currentModel ∧
    (FinancialApp.generateModelP0 st rawQuery o).2 = none := by
  refine ⟨?_, ?_, ?_, ?_, ?_⟩ <;>
    simp [FinancialApp.generateModel, FinancialApp.generateModelP0, hq,
      FinancialApp.showError]

/-- Witness for C8's amended theorem at a whitespace-only query. -/
theorem FinancialApp.empty_query_no_fetch_witness :
    jsTrim "   " = "" ∧
    ((FinancialApp.generateModel st0 "   " env0 (.httpError none)).2 = none ∧
      (FinancialApp.generateModel st0 "   " env0
        (.httpError none)).1.errorVisible = true ∧
      (FinancialApp.generateModel st0 "   " env0 (.httpError none)).1.errorText
          = "Please describe your financial scenario" ∧
      (FinancialApp.generateModel st0 "   " env0
        (.httpError none)).1.currentModel = st0.currentModel ∧
      (FinancialApp.generateModelP0 st0 "   " (.httpError none)).2 = none) :=
  ⟨by decide,
    FinancialApp.empty_query_no_fetch st0 "   " env0 (.httpError none)
      (by decide)⟩

theorem FinancialApp.switchTab_fields (tabName : String)
    (env : FinancialApp.RenderEnv) (st : FinancialApp.UIState) :
    (FinancialApp.switchTab tabName env st).activeTab = tabName ∧
    (FinancialApp.switchTab tabName env st).currentModel = st.currentModel ∧
    (FinancialApp.switchTab tabName env st).errorVisible = st.errorVisible ∧
    (FinancialApp.switchTab tabName env st).errorText = st.errorText ∧
    (FinancialApp.switchTab tabName env st).loading = st.loading := by
  unfold FinancialApp.switchTab
  cases h : st.currentModel <;>
    by_cases ht : tabName = "charts" <;>
      (simp [h, ht]; try (split <;> simp))

/-- C9 counterexample: from a state whose active tab is "table", a
successful search in app.js ends with the active tab equal to "charts",
not "table": `displayResults` ends with `switchTab('charts')`,
so storing the model does not leave the active tab unchanged. -/
theorem FinancialApp.success_switches_tab_counterexample :
    st0.activeTab = "table" ∧
    (FinancialApp.generateModel st0 "grow revenue" env0
        (.success m0)).1.activeTab = "charts" ∧
    ("charts" : String) ≠ "table" :=
  ⟨rfl, by decide, by decide⟩

/-- C9 amended: a successful fetch replaces the held model wholesale
with the response body and leaves the error hidden (it was cleared by
`hideError` before the call) in both class-based variants; but only
part_000 leaves the active tab unchanged — app.js's `displayResults`
ends by switching the active tab to "charts". -/
theorem FinancialApp.setModel_success_behavior
    (st : FinancialApp.UIState) (rawQuery : String)
    (env : FinancialApp.RenderEnv) (data : Model)
    (hq : jsTrim rawQuery ≠ "") :
    (FinancialApp.generateModel st rawQuery env
        (.success data)).1.currentModel = some data ∧
    (FinancialApp.generateModel st rawQuery env
        (.success data)).1.errorVisible = false ∧
    (FinancialApp.generateModel st rawQuery env
        (.success data)).1.activeTab = "charts" ∧
    (FinancialApp.generateModelP0 st rawQuery
        (.success data)).1.currentModel = some data ∧
    (FinancialApp.generateModelP0 st rawQuery
        (.success data)).1.errorVisible = false ∧
    (FinancialApp.generateModelP0 st rawQuery
        (.success data)).1.activeTab = st.activeTab ∧
    (FinancialApp.generateModelP0 st rawQuery
        (.success data)).1.errorText = st.errorText := by
  have hsw := FinancialApp.switchTab_fields "charts" env
  refine ⟨?_, ?_, ?_, ?_, ?_, ?_, ?_⟩ <;>
    simp [FinancialApp.generateModel, FinancialApp.generateModelP0, hq,
      (hsw _).1, (hsw _).2.1, (hsw _).2.2.1, (hsw _).2.2.2.1]

/-- Witness for C9's amended theorem at a concrete state and payload. -/
theorem FinancialApp.setModel_success_behavior_witness :
    jsTrim "grow revenue" ≠ "" ∧
    ((FinancialApp.generateModel st0 "grow revenue" env0
        (.success m0)).1.currentModel = some m0 ∧
      (FinancialApp.generateModel st0 "grow revenue" env0
        (.success m0)).1.errorVisible = false ∧
      (FinancialApp.generateModel st0 "grow revenue" env0
        (.success m0)).1.activeTab = "charts" ∧
      (FinancialApp.generateModelP0 st0 "grow revenue"
        (.success m0)).1.currentModel = some m0 ∧
      (FinancialApp.generateModelP0 st0 "grow revenue"
        (.success m0)).1.errorVisible = false ∧
      (FinancialApp.generateModelP0 st0 "grow revenue"
        (.success m0)).1.activeTab = st0.activeTab ∧
      (FinancialApp.generateModelP0 st0 "grow revenue"
        (.success m0)).1.errorText = st0.errorText) :=
  ⟨by decide,
    FinancialApp.setModel_success_behavior st0 "grow revenue" env0 m0
      (by decide)⟩

/-- C10: in the class-based variants, invoking the Excel export with no
held model returns immediately: the state is returned unchanged (model,
loading, error and tab untouched), the export endpoint is not fetched,
and no download is triggered. -/
theorem FinancialApp.export_without_model_is_noop
    (st : FinancialApp.UIState) (o : FinancialApp.ExportOutcome)
    (h : st.currentModel = none) :
    FinancialApp.exportToExcel st o = (st, false, false) := by
  simp only [FinancialApp.exportToExcel, h]

/-- Witness for C10 at a concrete model-free state. -/
theorem FinancialApp.export_without_model_is_noop_witness :
    st0.currentModel = none ∧
    FinancialApp.exportToExcel st0 .ok = (st0, false, false) :=
  ⟨rfl, FinancialApp.export_without_model_is_noop st0 .ok rfl⟩
